import Mathlib

/-!
Verification development for the py-sim repository (the "Cooper method"
marker-following solver in pagoda/cooper.py, together with the rigid-body
wrapper layer in lmj/sim/physics.py).

The Python sources are shallowly embedded below.  Machine reals are modelled
with exact rationals; the single place where IEEE NaN semantics matter
(np.mean of an empty list inside Markers.rms_distance) is modelled with an
explicit nan-carrying value type.  Python dictionaries keyed by strings are
modelled as association lists; dictionary iteration order is modelled by the
list order, which is fixed per dictionary in CPython 2 exactly as a list
order is fixed here.

The modules pagoda/physics.py and pagoda/skeleton.py are not present in the
repository snapshot (cooper.py imports them); operations of the Skeleton
class are modelled from the spec, section 4.1, and are marked as such in
their doc comments.  Everything else is translated from the source files.
-/

namespace PySim

/-- A 3-vector of exact rationals, standing for a numpy length-3 float array. -/
abbrev Vec3 := ℚ × ℚ × ℚ

def vzero : Vec3 := (0, 0, 0)

def vsub (a b : Vec3) : Vec3 := (a.1 - b.1, a.2.1 - b.2.1, a.2.2 - b.2.2)

def vsmul (q : ℚ) (a : Vec3) : Vec3 := (q * a.1, q * a.2.1, q * a.2.2)

/-- Squared Euclidean norm of a 3-vector. -/
def sqnorm (a : Vec3) : ℚ := a.1 * a.1 + a.2.1 * a.2.1 + a.2.2 * a.2.2

/-- One marker sample: one row of the num-frames x num-markers x 5 array
`Markers.data`.  Columns 0..2 are the world position, column 3 is the C3D
residual (never read by the solver), column 4 is the validity flag. -/
structure MSample where
  pos : Vec3
  res : ℚ
  validity : ℚ
  deriving DecidableEq

def defaultSample : MSample := { pos := vzero, res := 0, validity := 0 }

/-- The kinematic state of one marker proxy body (a sphere created by
Markers.create_bodies); only the fields written by Markers.reposition. -/
structure MarkerBody where
  position : Vec3
  linear_velocity : Vec3
  deriving DecidableEq

def defaultMB : MarkerBody := { position := vzero, linear_velocity := vzero }

/-- One ode.BallJoint created by Markers.attach: the proxy body, the target
skeleton body, the body-relative anchor offset, and the two joint
parameters set on it. -/
structure AttachJoint where
  marker : String
  target : String
  anchor2Rel : Vec3
  cfmParam : ℚ
  erpParam : ℚ
  deriving DecidableEq

/-- Lookup in an association list standing for a Python dict. -/
def alookup {α : Type} (k : String) : List (String × α) → Option α
  | [] => none
  | p :: rest => if p.1 = k then some p.2 else alookup k rest

/-- Assignment d[k] = v for a key already present in the dict: every entry
with key k is overwritten (keys are unique in an actual dict). -/
def aupdate {α : Type} (k : String) (v : α) (l : List (String × α)) :
    List (String × α) :=
  l.map (fun p => if p.1 = k then (p.1, v) else p)

/-- State of the Markers class (pagoda/cooper.py, lines 69-297).  Fields
mirror the attributes set in Markers.__init__ and later load calls;
world_dt is self.world.dt, read by reposition. -/
structure Markers where
  channels : List (String × Nat)
  marker_bodies : List (String × MarkerBody)
  attach_bodies : List (String × String)
  attach_offsets : List (String × Vec3)
  roots : List String
  cfm : ℚ
  erp : ℚ
  root_attachment_factor : ℚ
  joints : List AttachJoint
  data : List (List MSample)
  world_dt : ℚ
  deriving DecidableEq

/-- Markers.DEFAULT_CFM = 1e-4. -/
def DEFAULT_CFM : ℚ := 1 / 10000

/-- Markers.DEFAULT_ERP = 0.3. -/
def DEFAULT_ERP : ℚ := 3 / 10

/-- Markers.num_frames: self.data.shape[0]. -/
def Markers.num_frames (m : Markers) : Nat := m.data.length

/-- Markers.num_markers: self.data.shape[1]. -/
def Markers.num_markers (m : Markers) : Nat := (m.data.headD []).length

/-- Markers.detach: self.jointgroup.empty(); self.joints = []. -/
def Markers.detach (m : Markers) : Markers := { m with joints := [] }

/-- The joint built by one iteration of the loop in Markers.attach for the
channel (label, j), or none when the target is unresolved or the marker is
in a dropout state (data[frame_no, j, 4] < 0) at this frame. -/
def mkJoint (m : Markers) (frame_no : Nat) (label : String) (j : Nat) :
    Option AttachJoint :=
  match alookup label m.attach_bodies with
  | none => none
  | some target =>
    if ((m.data.getD frame_no []).getD j defaultSample).validity < 0 then none
    else
      let f : ℚ := if target ∈ m.roots then m.root_attachment_factor else 1
      some { marker := label
             target := target
             anchor2Rel := (alookup label m.attach_offsets).getD vzero
             cfmParam := m.cfm / f
             erpParam := m.erp }

/-- The list of joints created by Markers.attach(frame_no), in channel
iteration order. -/
def Markers.attachJoints (m : Markers) (frame_no : Nat) : List AttachJoint :=
  m.channels.filterMap (fun lj => mkJoint m frame_no lj.1 lj.2)

/-- Markers.attach(frame_no): each created joint is appended to self.joints. -/
def Markers.attach (m : Markers) (frame_no : Nat) : Markers :=
  { m with joints := m.joints ++ m.attachJoints frame_no }

/-- The finite-difference velocity row delta[c] computed by
Markers.reposition: zero unless 0 < frame_no < num_frames - 1 and both
neighbor samples have validity > -1. -/
def Markers.deltaRow (m : Markers) (frame_no : Nat) (c : Nat) : Vec3 :=
  if 0 < frame_no ∧ frame_no < m.num_frames - 1 then
    let prevS := (m.data.getD (frame_no - 1) []).getD c defaultSample
    let nextS := (m.data.getD (frame_no + 1) []).getD c defaultSample
    if prevS.validity > -1 ∧ nextS.validity > -1 then
      vsmul (1 / (2 * m.world_dt)) (vsub nextS.pos prevS.pos)
    else vzero
  else vzero

/-- Markers.reposition(frame_no): for every channel (label, j), the proxy
body marker_bodies[label] gets position frame[j] and linear velocity
delta[j]. -/
def Markers.reposition (m : Markers) (frame_no : Nat) : Markers :=
  let frame := (m.data.getD frame_no []).map MSample.pos
  { m with marker_bodies :=
      (m.channels.foldl
        (fun bodies lj =>
          aupdate lj.1
            { position := frame.getD lj.2 vzero
              linear_velocity := m.deltaRow frame_no lj.2 } bodies)
        m.marker_bodies) }

/-- The value of Markers.rms_distance: either NaN (np.mean of an empty list,
propagated through np.sqrt) or the square root of the mean m of the squared
anchor distances, represented symbolically as sqrtOf m. -/
inductive RmsVal where
  | nan : RmsVal
  | sqrtOf : ℚ → RmsVal
  deriving DecidableEq

/-- Markers.rms_distance.  The engine-reported world anchors of each joint
(joint.getAnchor() and joint.getAnchor2()) are supplied by the anchors
oracle.  With no joints, deltas is empty and np.mean([]) is NaN. -/
def rms_distance (anchors : AttachJoint → Vec3 × Vec3)
    (joints : List AttachJoint) : RmsVal :=
  let deltas := joints.map (fun j => sqnorm (vsub (anchors j).1 (anchors j).2))
  if deltas.isEmpty then RmsVal.nan
  else RmsVal.sqrtOf (deltas.sum / (deltas.length : ℚ))

/-- The IEEE comparison rmsd < t on an rms_distance value: NaN compares
false against everything; for a nonnegative mean m, sqrt m < t holds
exactly when 0 < t and m < t * t. -/
def rmsLt (v : RmsVal) (t : ℚ) : Bool :=
  match v with
  | RmsVal.nan => false
  | RmsVal.sqrtOf m => decide (0 < t) && decide (m < t * t)

/-- The kinematic state of one rigid body: the four attributes read by
World.get_body_states and written by World.set_body_states
(lmj/sim/physics.py, lines 668-683). -/
structure BodyState where
  position : Vec3
  quaternion : ℚ × ℚ × ℚ × ℚ
  linear_velocity : Vec3
  angular_velocity : Vec3
  deriving DecidableEq

/-- A FrameState: one (name, position, quaternion, linear velocity, angular
velocity) tuple per body, as produced by get_body_states. -/
abbrev FrameState := List (String × BodyState)

/-- The body dictionary self._bodies of lmj/sim/physics.py World, restricted
to the state the two body-state methods touch. -/
structure PhysWorld where
  bodies : List (String × BodyState)
  deriving DecidableEq

/-- World.bodies property: the bodies in sorted key order
(for k in sorted(self._bodies)). -/
def PhysWorld.sortedBodies (w : PhysWorld) : List (String × BodyState) :=
  List.insertionSort (fun a b : String × BodyState => a.1 ≤ b.1) w.bodies

/-- World.get_body_states (lmj/sim/physics.py line 668): one tuple of name,
position, quaternion, linear velocity, angular velocity per body, in sorted
body-name order. -/
def PhysWorld.get_body_states (w : PhysWorld) : FrameState :=
  w.sortedBodies

/-- World.set_body_states (lmj/sim/physics.py line 676): for each tuple, the
body of that name is fetched and its four state attributes are assigned.
A name absent from the dictionary would raise KeyError in Python; here the
assignment is a no-op, which agrees with Python on every state produced by
get_body_states (all of whose names are present). -/
def PhysWorld.set_body_states (w : PhysWorld) (states : FrameState) : PhysWorld :=
  { w with bodies := states.foldl (fun bs p => aupdate p.1 p.2 bs) w.bodies }

/-- The mutable state of the cooper World (pagoda/cooper.py class World)
that the marker-following solver touches: the Markers object, the skeleton
body states, the skeleton motor flags (modelled from the spec, section 4.1,
because pagoda/skeleton.py is absent from the repository snapshot), the
torque vector applied to the joint motors, the joint_torques feedback
readout, the size of the transient contact group, and a ghost log of
add_torques calls used only to state call-count properties. -/
structure CWorld where
  markers : Markers
  skeleton : FrameState
  motors_on : Bool
  motor_max_force : ℚ
  target_angles : List ℚ
  applied_torques : List ℚ
  feedback : List ℚ
  contacts : Nat
  torque_log : List (List ℚ)
  deriving DecidableEq

/-- The external rigid-body engine (ODE), an oracle: stepPose gives each
body's state after one integration step, stepTorques gives the
constraint-force feedback available after that step, contactsFn the number
of contact joints generated by one collision pass, anchors the
engine-reported world anchors of an attachment joint. -/
structure Engine where
  stepPose : CWorld → String → BodyState
  stepTorques : CWorld → List ℚ
  contactsFn : CWorld → Nat
  anchors : CWorld → AttachJoint → Vec3 × Vec3

/-- Modelled from the spec: Skeleton.get_body_states (section 4.1) reads the
current body poses and velocities with no side effects
(pagoda/skeleton.py is not in the repository snapshot). -/
def skelGetBodyStates (w : CWorld) : FrameState := w.skeleton

/-- Modelled from the spec: Skeleton.set_body_states (section 4.1) writes
poses and velocities back into every body named in the FrameState, as the
sibling implementation in lmj/sim/physics.py does. -/
def skelSetBodyStates (states : FrameState) (w : CWorld) : CWorld :=
  { w with skeleton := states.foldl (fun bs p => aupdate p.1 p.2 bs) w.skeleton }

/-- Modelled from the spec: Skeleton.enable_motors (section 4.1) turns on
velocity-following motors capped at max_force, without altering body
state. -/
def enable_motors (max_force : ℚ) (w : CWorld) : CWorld :=
  { w with motors_on := true, motor_max_force := max_force }

/-- Modelled from the spec: Skeleton.disable_motors (section 4.1) releases
motor control without altering body state. -/
def disable_motors (w : CWorld) : CWorld :=
  { w with motors_on := false }

/-- Modelled from the spec: Skeleton.set_target_angles (section 4.1) runs
the per-DOF PID controllers and sets motor velocity targets; body state is
untouched. -/
def set_target_angles (angles : List ℚ) (w : CWorld) : CWorld :=
  { w with target_angles := angles }

/-- Modelled from the spec: Skeleton.add_torques (section 4.1) applies the
torque vector directly to the joint motors, bypassing the PID controllers;
the torques act as forces at the next integration step and do not change
any body's kinematic state.  The ghost torque_log records the call. -/
def add_torques (torques : List ℚ) (w : CWorld) : CWorld :=
  { w with applied_torques := torques, torque_log := w.torque_log ++ [torques] }

/-- Modelled from the spec: Skeleton.joint_torques (section 4.1) is a
read-only projection of the constraint-force-derived torques, one per DOF;
the engine oracle deposits them in the feedback field at each step. -/
def joint_torques (w : CWorld) : List ℚ := w.feedback

/-- self.ode_world.step(self.dt): one engine integration step.  ODE updates
the kinematic state of every existing body and the joint feedback; it
creates or destroys no body and touches no marker configuration. -/
def odeStep (e : Engine) (w : CWorld) : CWorld :=
  { w with skeleton := w.skeleton.map (fun p => (p.1, e.stepPose w p.1))
           feedback := e.stepTorques w }

/-- self.ode_space.collide(None, self.on_collision): adds contact joints to
the transient contact group. -/
def collide (e : Engine) (w : CWorld) : CWorld :=
  { w with contacts := w.contacts + e.contactsFn w }

/-- self.ode_contactgroup.empty(): clears the transient contact group. -/
def emptyContacts (w : CWorld) : CWorld := { w with contacts := 0 }

/-- The first half of World._step_to_marker_frame (pagoda/cooper.py lines
454-467), up to and including the yield: detach, reposition, attach,
collide, capture the body-state checkpoint, restore it, and hand the
checkpoint to the caller. -/
def stepToFrameA (e : Engine) (w : CWorld) (frame_no : Nat) :
    CWorld × FrameState :=
  let m := ((w.markers.detach).reposition frame_no).attach frame_no
  let w1 := collide e { w with markers := m }
  let states := skelGetBodyStates w1
  let w2 := skelSetBodyStates states w1
  (w2, states)

/-- The second half of World._step_to_marker_frame (lines 469-473), run when
the generator is resumed: step the ODE world, then empty the contact
group. -/
def stepToFrameB (e : Engine) (w : CWorld) : CWorld :=
  emptyContacts (odeStep e w)

/-- One whole _step_to_marker_frame generator run: both halves, together
with the checkpoint FrameState it yields in between. -/
def stepToFrameRun (e : Engine) (w : CWorld) (frame_no : Nat) :
    CWorld × FrameState :=
  let p := stepToFrameA e w frame_no
  (stepToFrameB e p.1, p.2)

/-- A Python 2 value appearing as the end bound of the frame-range test
start <= frame_no < end in follow_markers: a number, None, or a list of
body states (forward_dynamics passes its states argument here). -/
inductive PyVal where
  | num : ℚ → PyVal
  | pynone : PyVal
  | pystates : FrameState → PyVal
  deriving DecidableEq

/-- The CPython 2 comparison frame_no < end for the mixed-type end bound:
numeric against numeric compares numerically; any number compares less than
any non-numeric object, and None is smaller than everything, so
frame_no < None is false and frame_no < a-list is true. -/
def py2LtNum (n : Nat) (v : PyVal) : Bool :=
  match v with
  | PyVal.num q => decide ((n : ℚ) < q)
  | PyVal.pynone => false
  | PyVal.pystates _ => true

/-- The frame numbers actually processed by the loop of follow_markers:
frame_no ranges over the data frames, filtered by
start <= frame_no < end. -/
def followFrames (start : Nat) (endv : PyVal) (n : Nat) : List Nat :=
  (List.range n).filter (fun f => decide (start ≤ f) && py2LtNum f endv)

/-- The generator protocol of follow_markers: for each followed frame, run
the first half of _step_to_marker_frame, let the consumer run at the
suspension point (enumerate index and yielded checkpoint in hand), then run
the second half on resumption.  Returns the final world together with the
consumer outputs in order. -/
def runFollow {α : Type} (e : Engine)
    (consume : Nat → FrameState → CWorld → CWorld × α) :
    List Nat → CWorld → Nat → CWorld × List α
  | [], w, _ => (w, [])
  | f :: rest, w, i =>
    let p := stepToFrameA e w f
    let q := consume i p.2 p.1
    let w3 := stepToFrameB e q.1
    let r := runFollow e consume rest w3 (i + 1)
    (r.1, q.2 :: r.2)

/-- World.follow_markers (pagoda/cooper.py lines 403-425) driven by a
consumer running at each yield: optionally set the skeleton states, then
iterate the marker frames in range. -/
def follow_markers {α : Type} (e : Engine)
    (consume : Nat → FrameState → CWorld → CWorld × α)
    (start : Nat) (endv : PyVal) (states : Option FrameState) (w : CWorld) :
    CWorld × List α :=
  let w0 := match states with
    | some s => skelSetBodyStates s w
    | none => w
  runFollow e consume (followFrames start endv w0.markers.num_frames) w0 0

/-- The body of the inverse_dynamics loop for one frame (pagoda/cooper.py
lines 545-561): enable motors, set the frame's target angles, step the
engine once more, read the joint torques, disable motors, restore the
checkpoint FrameState yielded by follow_markers, apply the computed torques
with add_torques, and yield the torques. -/
def idFrame (e : Engine) (max_force : ℚ) (angle : List ℚ) (cp : FrameState)
    (w : CWorld) : CWorld × List ℚ :=
  let w1 := enable_motors max_force w
  let w2 := set_target_angles angle w1
  let w3 := odeStep e w2
  let torques := joint_torques w3
  let w4 := disable_motors w3
  let w5 := skelSetBodyStates cp w4
  let w6 := add_torques torques w5
  (w6, torques)

/-- World.inverse_dynamics (pagoda/cooper.py lines 512-561): slice the angle
array, then follow the marker data, running one idFrame at each yield and
collecting the torque vectors. -/
def inverse_dynamics (e : Engine) (angles : List (List ℚ)) (start : Nat)
    (endq : ℚ) (states : Option FrameState) (max_force : ℚ) (w : CWorld) :
    CWorld × List (List ℚ) :=
  let sliced := (angles.drop start).take (Int.toNat (⌊endq⌋ - (start : Int)))
  follow_markers e
    (fun i cp w1 => idFrame e max_force (sliced.getD i []) cp w1)
    start (PyVal.num endq) states w

/-- World.forward_dynamics (pagoda/cooper.py lines 563-566).  The source
reads for i, _ in enumerate(self.follow_markers(start, states)):
self.skeleton.add_torques(torques[i]) - the states argument is passed
positionally as follow_markers' end parameter, and follow_markers' own
states parameter is left at None. -/
def forward_dynamics (e : Engine) (torques : List (List ℚ)) (start : Nat)
    (states : Option FrameState) (w : CWorld) : CWorld :=
  let endv : PyVal := match states with
    | none => PyVal.pynone
    | some fs => PyVal.pystates fs
  (follow_markers e
    (fun i _ w1 => (add_torques (torques.getD i []) w1, ()))
    start endv none w).1

/-- A Python exception raised by the embedded code. -/
inductive PyErr where
  | nameErrorMaxRmsd : PyErr
  | nameErrorLabels : PyErr
  | assertFrameRate : PyErr
  deriving DecidableEq

/-- World.settle_to_markers (pagoda/cooper.py lines 374-401).  The loop body
re-steps the requested frame, computes the RMS marker distance, and then
evaluates rmsd < max_rmsd on source line 400; the name max_rmsd is not
defined anywhere (the parameter is max_rms_distance and no global of that
name exists), so the first iteration raises NameError. -/
def settle_to_markers (e : Engine) (frame_no : Nat) (max_rms_distance : ℚ)
    (states : Option FrameState) (w : CWorld) : Except PyErr FrameState :=
  let w0 := match states with
    | some s => skelSetBodyStates s w
    | none => w
  let p := stepToFrameRun e w0 frame_no
  let _rmsd := rms_distance (e.anchors p.1) p.1.markers.joints
  let _unusedThreshold := max_rms_distance
  Except.error PyErr.nameErrorMaxRmsd

/-- An event of the marker-loading flow of World.load_markers. -/
inductive LoadEv where
  | loadC3d : LoadEv
  | fatalLogged : LoadEv
  | loadAttachments : LoadEv
  deriving DecidableEq

/-- Markers.load_c3d (pagoda/cooper.py lines 133-161), control flow only:
assert self.world.dt == 1. / reader.frame_rate() aborts with
AssertionError on a frame-rate mismatch; otherwise loading proceeds. -/
def load_c3d (dt frameRate : ℚ) : Except PyErr Unit :=
  if dt = 1 / frameRate then Except.ok () else Except.error PyErr.assertFrameRate

/-- World.load_markers (pagoda/cooper.py lines 319-348), control flow: the
filename extension selects the loader; a filename that is neither .c3d nor
.csv only logs a fatal-level message (logging.fatal does not raise) and the
call continues to load_attachments.  The .csv branch always raises: line
121 of load_csv reads the name labels, which is not defined there. -/
def load_markers (filename : String) (dt frameRate : ℚ) :
    Except PyErr (List LoadEv) :=
  if filename.toLower.endsWith ".c3d" then
    match load_c3d dt frameRate with
    | Except.error err => Except.error err
    | Except.ok _ => Except.ok [LoadEv.loadC3d, LoadEv.loadAttachments]
  else if filename.toLower.endsWith ".csv" then
    Except.error PyErr.nameErrorLabels
  else
    Except.ok [LoadEv.fatalLogged, LoadEv.loadAttachments]

/-! Helper lemmas on the association-list model of Python dictionaries. -/

theorem keys_aupdate {α : Type} (k : String) (v : α) (l : List (String × α)) :
    (aupdate k v l).map Prod.fst = l.map Prod.fst := by
  induction l with
  | nil => rfl
  | cons p rest ih =>
    simp only [aupdate, List.map_cons] at ih ⊢
    by_cases h : p.1 = k <;> simp [h, ih]

theorem aupdate_not_mem {α : Type} {k : String} {l : List (String × α)}
    (v : α) (h : k ∉ l.map Prod.fst) : aupdate k v l = l := by
  induction l with
  | nil => rfl
  | cons p rest ih =>
    simp only [List.map_cons, List.mem_cons] at h
    push_neg at h
    simp only [aupdate, List.map_cons]
    rw [if_neg (fun hc => h.1 hc.symm)]
    have := ih h.2
    simp only [aupdate] at this
    rw [this]

theorem aupdate_mem_self {α : Type} {k : String} {v : α}
    {l : List (String × α)} (hnd : (l.map Prod.fst).Nodup)
    (hmem : (k, v) ∈ l) : aupdate k v l = l := by
  induction l with
  | nil => cases hmem
  | cons p rest ih =>
    simp only [List.map_cons, List.nodup_cons] at hnd
    rcases List.mem_cons.mp hmem with heq | hrest
    · have hk : p.1 = k := by rw [← heq]
      have hknot : k ∉ rest.map Prod.fst := hk ▸ hnd.1
      simp only [aupdate, List.map_cons]
      rw [if_pos hk]
      have h2 := aupdate_not_mem (l := rest) v hknot
      simp only [aupdate] at h2
      rw [h2, ← heq]
    · have hk : p.1 ≠ k := by
        intro hc
        exact (hc ▸ hnd.1) (List.mem_map.mpr ⟨(k, v), hrest, rfl⟩)
      have h2 := ih hnd.2 hrest
      simp only [aupdate, List.map_cons] at h2 ⊢
      rw [if_neg hk, h2]

theorem aupdate_cons_ne {α : Type} {k' : String} (v' : α) (kv : String × α)
    (l : List (String × α)) (h : kv.1 ≠ k') :
    aupdate k' v' (kv :: l) = kv :: aupdate k' v' l := by
  simp only [aupdate, List.map_cons]
  rw [if_neg h]

theorem alookup_aupdate_self {α : Type} {k : String} {l : List (String × α)}
    (v : α) (h : k ∈ l.map Prod.fst) :
    alookup k (aupdate k v l) = some v := by
  induction l with
  | nil => cases h
  | cons p rest ih =>
    simp only [List.map_cons, List.mem_cons] at h
    by_cases hk : p.1 = k
    · simp [aupdate, alookup, hk]
    · have hr : k ∈ rest.map Prod.fst := by
        rcases h with h1 | h2
        · exact absurd h1.symm hk
        · exact h2
      have := ih hr
      simp only [aupdate] at this ⊢
      simp [alookup, hk, this]

theorem alookup_aupdate_ne {α : Type} {k k' : String} (v' : α)
    (l : List (String × α)) (h : k' ≠ k) :
    alookup k (aupdate k' v' l) = alookup k l := by
  induction l with
  | nil => rfl
  | cons p rest ih =>
    simp only [aupdate, List.map_cons]
    by_cases hk : p.1 = k'
    · rw [if_pos hk]
      have hne : ¬p.1 = k := fun hc => h (hk ▸ hc)
      simp only [alookup]
      rw [if_neg hne, if_neg hne]
      exact ih
    · rw [if_neg hk]
      by_cases h2 : p.1 = k
      · simp only [alookup]
        rw [if_pos h2, if_pos h2]
      · simp only [alookup]
        rw [if_neg h2, if_neg h2]
        exact ih

theorem foldl_aupdate_mem {α : Type} {bs : List (String × α)}
    (hnd : (bs.map Prod.fst).Nodup) :
    ∀ cs : List (String × α), (∀ p ∈ cs, p ∈ bs) →
      cs.foldl (fun l p => aupdate p.1 p.2 l) bs = bs := by
  intro cs
  induction cs with
  | nil => intro _; rfl
  | cons p rest ih =>
    intro hmem
    have h1 : aupdate p.1 p.2 bs = bs :=
      aupdate_mem_self hnd (hmem p (List.mem_cons_self p rest))
    simp only [List.foldl_cons, h1]
    exact ih (fun q hq => hmem q (List.mem_cons_of_mem p hq))

theorem foldl_aupdate_cons_notmem {α : Type} (kv : String × α) :
    ∀ (cs bs : List (String × α)), (∀ p ∈ cs, p.1 ≠ kv.1) →
      cs.foldl (fun l p => aupdate p.1 p.2 l) (kv :: bs) =
        kv :: cs.foldl (fun l p => aupdate p.1 p.2 l) bs := by
  intro cs
  induction cs with
  | nil => intro bs _; rfl
  | cons p rest ih =>
    intro bs hne
    have h1 : aupdate p.1 p.2 (kv :: bs) = kv :: aupdate p.1 p.2 bs := by
      have : kv.1 ≠ p.1 := fun hc => hne p (List.mem_cons_self p rest) hc.symm
      exact aupdate_cons_ne p.2 kv bs this
    simp only [List.foldl_cons, h1]
    exact ih (aupdate p.1 p.2 bs) (fun q hq => hne q (List.mem_cons_of_mem p hq))

theorem foldl_aupdate_replace {α : Type} :
    ∀ (cs bs : List (String × α)), bs.map Prod.fst = cs.map Prod.fst →
      (cs.map Prod.fst).Nodup →
      cs.foldl (fun l p => aupdate p.1 p.2 l) bs = cs := by
  intro cs
  induction cs with
  | nil =>
    intro bs hkeys _
    simp only [List.map_nil, List.map_eq_nil_iff] at hkeys
    rw [hkeys]
    rfl
  | cons c cs' ih =>
    intro bs hkeys hnd
    cases bs with
    | nil => simp at hkeys
    | cons b bs' =>
      simp only [List.map_cons, List.cons.injEq] at hkeys
      simp only [List.map_cons, List.nodup_cons] at hnd
      have hb1 : b.1 = c.1 := hkeys.1
      have hstep : aupdate c.1 c.2 (b :: bs') = c :: bs' := by
        simp only [aupdate, List.map_cons]
        rw [if_pos hb1]
        have h2 : aupdate c.1 c.2 bs' = bs' := by
          apply aupdate_not_mem
          rw [hkeys.2]
          exact hnd.1
        simp only [aupdate] at h2
        rw [h2, hb1]
      simp only [List.foldl_cons, hstep]
      have hcons := foldl_aupdate_cons_notmem c cs' bs'
        (fun p hp hc => hnd.1 (hc ▸ List.mem_map.mpr ⟨p, hp, rfl⟩))
      rw [hcons, ih bs' hkeys.2 hnd.2]

theorem alookup_foldl_aupdate_ne {α β : Type} (g : String × β → α)
    {k : String} :
    ∀ (cs : List (String × β)) (bodies : List (String × α)),
      (∀ p ∈ cs, p.1 ≠ k) →
      alookup k (cs.foldl (fun bs lj => aupdate lj.1 (g lj) bs) bodies) =
        alookup k bodies := by
  intro cs
  induction cs with
  | nil => intro bodies _; rfl
  | cons p rest ih =>
    intro bodies hne
    simp only [List.foldl_cons]
    rw [ih (aupdate p.1 (g p) bodies)
        (fun q hq => hne q (List.mem_cons_of_mem p hq))]
    exact alookup_aupdate_ne (g p) bodies (hne p (List.mem_cons_self p rest))

theorem alookup_foldl_aupdate {α β : Type} (g : String × β → α)
    {k : String} {j : β} :
    ∀ (cs : List (String × β)) (bodies : List (String × α)),
      (cs.map Prod.fst).Nodup → (k, j) ∈ cs → k ∈ bodies.map Prod.fst →
      alookup k (cs.foldl (fun bs lj => aupdate lj.1 (g lj) bs) bodies) =
        some (g (k, j)) := by
  intro cs
  induction cs with
  | nil => intro bodies _ hmem _; cases hmem
  | cons p rest ih =>
    intro bodies hnd hmem hkeys
    simp only [List.map_cons, List.nodup_cons] at hnd
    by_cases hk : p.1 = k
    · have hpj : p = (k, j) := by
        rcases List.mem_cons.mp hmem with heq | hrest
        · exact heq.symm
        · exact absurd (hk ▸ List.mem_map.mpr ⟨(k, j), hrest, rfl⟩) hnd.1
      simp only [List.foldl_cons]
      rw [alookup_foldl_aupdate_ne g rest (aupdate p.1 (g p) bodies)
          (fun q hq hc => (hk ▸ hnd.1) (hc ▸ List.mem_map.mpr ⟨q, hq, rfl⟩))]
      rw [hpj]
      exact alookup_aupdate_self (g (k, j)) hkeys
    · have hrest : (k, j) ∈ rest := by
        rcases List.mem_cons.mp hmem with heq | hr
        · exact absurd (by rw [← heq]) hk
        · exact hr
      simp only [List.foldl_cons]
      exact ih (aupdate p.1 (g p) bodies) hnd.2 hrest
        ((keys_aupdate p.1 (g p) bodies).symm ▸ hkeys)

/-! Helper lemmas on the frame-stepping protocol. -/

/-- After one whole _step_to_marker_frame run, the attachment list holds
exactly the joints attach(frame_no) builds from the marker configuration:
whatever joints existed before the frame are gone. -/
theorem stepRun_joints (e : Engine) (w : CWorld) (f : Nat) :
    ((stepToFrameRun e w f).1).markers.joints = w.markers.attachJoints f := rfl

/-- A _step_to_marker_frame run only moves marker bodies and rebuilds the
joint list; the marker configuration that attach reads is untouched, so the
joints a later attach would build are unchanged. -/
theorem stepRun_attachJoints (e : Engine) (w : CWorld) (f f2 : Nat) :
    ((stepToFrameRun e w f).1).markers.attachJoints f2 =
      w.markers.attachJoints f2 := rfl

/-- Renaming-shaped maps preserve the key list of an association list. -/
theorem keys_map_pair {α : Type} (g : String × α → α) (l : List (String × α)) :
    (l.map (fun p => (p.1, g p))).map Prod.fst = l.map Prod.fst := by
  simp only [List.map_map]
  rfl

/-- C4: in every frame processed by _step_to_marker_frame, detach leaves
zero joints before attach runs, the joint list after the frame holds
exactly the current frame's attachments (so springs of two frames never
coexist), the yielded checkpoint is the skeleton state captured before the
engine step, and the contact group is empty after the step. -/
theorem c4_step_frame_ordering (e : Engine) (w : CWorld) (f : Nat) :
    ((w.markers.detach)).joints = [] ∧
    (stepToFrameRun e w f).2 = w.skeleton ∧
    ((stepToFrameRun e w f).1).markers.joints = w.markers.attachJoints f ∧
    ((stepToFrameRun e w f).1).contacts = 0 := by
  refine ⟨rfl, rfl, stepRun_joints e w f, rfl⟩

/-- C5: settle_to_markers always raises NameError on its first loop
iteration: source line 400 compares rmsd against the name max_rmsd, which
is not defined anywhere (the parameter is named max_rms_distance), so the
documented behavior of looping until the RMS distance falls below the
threshold and returning the settled body states is unreachable. -/
theorem c5_settle_name_error (e : Engine) (frame_no : Nat)
    (max_rms_distance : ℚ) (states : Option FrameState) (w : CWorld) :
    settle_to_markers e frame_no max_rms_distance states w =
      Except.error PyErr.nameErrorMaxRmsd := rfl

/-- C7: forward_dynamics passes its states argument positionally into
follow_markers' end parameter, so with the default states=None the CPython
2 comparison frame_no < None is false for every frame: no frame is
followed, add_torques is never called, and the world is returned untouched
no matter how much marker data and torque data exist. -/
theorem c7_forward_dynamics_ignores_frames (e : Engine)
    (torques : List (List ℚ)) (start : Nat) (w : CWorld) :
    forward_dynamics e torques start none w = w := by
  have h : followFrames start PyVal.pynone w.markers.num_frames = [] := by
    simp [followFrames, py2LtNum]
  show (runFollow e _ (followFrames start PyVal.pynone w.markers.num_frames)
      w 0).1 = w
  rw [h]
  rfl

/-- C1: one frame of the inverse_dynamics loop, run at the follow_markers
suspension point with the checkpoint cp that follow_markers yielded for the
frame: after the angle-following engine step the computed torques are the
joint_torques feedback of that step, the motors end up disabled, and the
skeleton's body states immediately after add_torques are exactly the
checkpoint cp, not the angle-constrained step's result.  The hypotheses say
the checkpoint names the same bodies as the skeleton (it was captured from
this very skeleton) without duplicates. -/
theorem c1_inverse_dynamics_restores_checkpoint (e : Engine) (max_force : ℚ)
    (angle : List ℚ) (cp : FrameState) (w : CWorld)
    (hkeys : w.skeleton.map Prod.fst = cp.map Prod.fst)
    (hnd : (cp.map Prod.fst).Nodup) :
    ((idFrame e max_force angle cp w).1).skeleton = cp ∧
    (idFrame e max_force angle cp w).2 =
      joint_torques (odeStep e (set_target_angles angle
        (enable_motors max_force w))) ∧
    ((idFrame e max_force angle cp w).1).motors_on = false := by
  refine ⟨?_, rfl, rfl⟩
  show cp.foldl (fun bs p => aupdate p.1 p.2 bs)
      ((odeStep e (set_target_angles angle (enable_motors max_force w))).skeleton)
        = cp
  refine foldl_aupdate_replace cp _ ?_ hnd
  show ((w.skeleton.map (fun p =>
      (p.1, e.stepPose (set_target_angles angle (enable_motors max_force w))
        p.1))).map Prod.fst) = cp.map Prod.fst
  rw [keys_map_pair]
  exact hkeys

/-- C6: restoring the FrameState captured by get_body_states via
set_body_states leaves the world's bodies unchanged, so any subsequent
engine behavior is identical to behavior without the capture-restore
pair.  The hypothesis says body names are unique, which the _bodies
dictionary guarantees in the source. -/
theorem c6_body_states_roundtrip (w : PhysWorld)
    (hnd : (w.bodies.map Prod.fst).Nodup) :
    w.set_body_states w.get_body_states = w ∧
    ∀ behave : PhysWorld → PhysWorld,
      behave (w.set_body_states w.get_body_states) = behave w := by
  have hmem : ∀ p ∈ w.get_body_states, p ∈ w.bodies := by
    intro p hp
    exact (List.perm_insertionSort
      (fun a b : String × BodyState => a.1 ≤ b.1) w.bodies).mem_iff.mp hp
  have h1 : w.set_body_states w.get_body_states = w := by
    show ({ w with bodies :=
      (w.get_body_states.foldl (fun bs p => aupdate p.1 p.2 bs) w.bodies) } :
        PhysWorld) = w
    rw [foldl_aupdate_mem hnd _ hmem]
  exact ⟨h1, fun behave => by rw [h1]⟩

/-- C8: attach followed by detach leaves exactly zero attachments; detach
on an empty attachment set is a no-op on the whole Markers state; and
re-running attach(frame_no) after detach() reproduces the identical
attachment list (same targets, offsets and compliance values), determined
by the marker configuration alone. -/
theorem c8_attach_detach_algebra (m : Markers) (f : Nat) :
    ((m.attach f).detach).joints = [] ∧
    (m.joints = [] → m.detach = m) ∧
    ((m.detach).attach f).joints = m.attachJoints f ∧
    ((((m.detach).attach f).detach).attach f).joints =
      ((m.detach).attach f).joints := by
  refine ⟨rfl, ?_, rfl, rfl⟩
  intro h
  show ({ m with joints := [] } : Markers) = m
  rw [← h]

/-- The compliance parameter Markers.attach assigns to every joint it
creates: the base cfm divided by root_attachment_factor for joints whose
target is a root body, the base cfm divided by one otherwise. -/
theorem attachJoints_cfm {m : Markers} {f : Nat} {jt : AttachJoint}
    (hmem : jt ∈ m.attachJoints f) :
    jt.cfmParam =
      m.cfm / (if jt.target ∈ m.roots then m.root_attachment_factor else 1) := by
  simp only [Markers.attachJoints, List.mem_filterMap] at hmem
  obtain ⟨lj, _, hmk⟩ := hmem
  unfold mkJoint at hmk
  split at hmk
  · cases hmk
  · split at hmk
    · cases hmk
    · have hj := Option.some.inj hmk
      subst hj
      rfl

/-- C3 (amended): attach gives a root-target joint compliance
cfm / root_attachment_factor and a non-root joint the base cfm unmodified;
the non-root compliance is the root compliance times the factor whenever
the factor is nonzero, and the root compliance is strictly smaller exactly
under a positive base cfm and a factor above one (the source default for
root_attachment_factor is 1, under which both are equal). -/
theorem c3_attach_compliance (m : Markers) (f : Nat) (j1 j2 : AttachJoint)
    (h1 : j1 ∈ m.attachJoints f) (h2 : j2 ∈ m.attachJoints f)
    (hr : j1.target ∈ m.roots) (hn : j2.target ∉ m.roots) :
    j1.cfmParam = m.cfm / m.root_attachment_factor ∧
    j2.cfmParam = m.cfm ∧
    (m.root_attachment_factor ≠ 0 →
      j2.cfmParam = j1.cfmParam * m.root_attachment_factor) ∧
    (0 < m.cfm → 1 < m.root_attachment_factor →
      j1.cfmParam < j2.cfmParam) := by
  have e1 := attachJoints_cfm h1
  have e2 := attachJoints_cfm h2
  rw [if_pos hr] at e1
  rw [if_neg hn, div_one] at e2
  refine ⟨e1, e2, ?_, ?_⟩
  · intro hf0
    rw [e1, e2]
    exact (div_mul_cancel₀ m.cfm hf0).symm
  · intro hc hf
    rw [e1, e2]
    exact div_lt_self hc hf

/-- The linear velocity of the proxy body of a marker channel after
reposition(frame_no). -/
def velAfter (m : Markers) (f : Nat) (label : String) : Vec3 :=
  ((alookup label ((m.reposition f).marker_bodies)).getD defaultMB).linear_velocity

/-- What reposition writes into a channel's proxy body: exactly the
finite-difference row deltaRow for that channel's column. -/
theorem reposition_velocity (m : Markers) (f : Nat) {label : String} {j : Nat}
    (hch : (label, j) ∈ m.channels)
    (hnd : (m.channels.map Prod.fst).Nodup)
    (hmb : label ∈ m.marker_bodies.map Prod.fst) :
    velAfter m f label = m.deltaRow f j := by
  have h := alookup_foldl_aupdate
    (fun lj => ({ position := ((m.data.getD f []).map MSample.pos).getD lj.2 vzero
                  linear_velocity := m.deltaRow f lj.2 } : MarkerBody))
    m.channels m.marker_bodies hnd hch hmb
  show ((alookup label
      (m.channels.foldl
        (fun bodies lj =>
          aupdate lj.1
            ({ position := ((m.data.getD f []).map MSample.pos).getD lj.2 vzero
               linear_velocity := m.deltaRow f lj.2 } : MarkerBody) bodies)
        m.marker_bodies)).getD defaultMB).linear_velocity = m.deltaRow f j
  rw [h]
  rfl

/-- C2 (amended): reposition's velocity rule for a marker channel.  At the
boundary frames the velocity is always zero.  At an interior frame the
velocity is zero when either neighbor sample's validity is at or below -1
(the source tests validity > -1, not validity >= 0), and otherwise it is
the centered finite difference (next - prev) / (2 dt). -/
theorem c2_reposition_velocity_rule (m : Markers) (f : Nat) (label : String)
    (j : Nat) (hch : (label, j) ∈ m.channels)
    (hnd : (m.channels.map Prod.fst).Nodup)
    (hmb : label ∈ m.marker_bodies.map Prod.fst) :
    ((f = 0 ∨ f = m.num_frames - 1) → velAfter m f label = vzero) ∧
    (0 < f → f < m.num_frames - 1 →
      (((m.data.getD (f - 1) []).getD j defaultSample).validity ≤ -1 ∨
       ((m.data.getD (f + 1) []).getD j defaultSample).validity ≤ -1) →
      velAfter m f label = vzero) ∧
    (0 < f → f < m.num_frames - 1 →
      -1 < ((m.data.getD (f - 1) []).getD j defaultSample).validity →
      -1 < ((m.data.getD (f + 1) []).getD j defaultSample).validity →
      velAfter m f label =
        vsmul (1 / (2 * m.world_dt))
          (vsub ((m.data.getD (f + 1) []).getD j defaultSample).pos
                ((m.data.getD (f - 1) []).getD j defaultSample).pos)) := by
  have hv := reposition_velocity m f hch hnd hmb
  refine ⟨?_, ?_, ?_⟩
  · intro hb
    rw [hv]
    simp only [Markers.deltaRow]
    rw [if_neg]
    rintro ⟨hc1, hc2⟩
    rcases hb with h0 | hl <;> omega
  · intro h1 h2 hdrop
    rw [hv]
    simp only [Markers.deltaRow]
    rw [if_pos ⟨h1, h2⟩, if_neg]
    rintro ⟨hp, hn⟩
    rcases hdrop with hd | hd
    · exact absurd hp (not_lt.mpr hd)
    · exact absurd hn (not_lt.mpr hd)
  · intro h1 h2 hp hn
    rw [hv]
    simp only [Markers.deltaRow]
    rw [if_pos ⟨h1, h2⟩, if_pos ⟨hp, hn⟩]

/-- C9 (amended): a C3D load aborts on a frame-rate mismatch, with an
AssertionError from the assert statement, not with any LoadError type (none
exists in the code); a filename that is neither .c3d nor .csv does not
abort load_markers at all: the unrecognized format is logged fatal and the
call continues into load_attachments. -/
theorem c9_load_markers_behavior (fname : String) (dt fr : ℚ) :
    (fname.toLower.endsWith ".c3d" = true → dt ≠ 1 / fr →
      load_markers fname dt fr = Except.error PyErr.assertFrameRate) ∧
    (fname.toLower.endsWith ".c3d" = false →
      fname.toLower.endsWith ".csv" = false →
      load_markers fname dt fr =
        Except.ok [LoadEv.fatalLogged, LoadEv.loadAttachments]) := by
  constructor
  · intro hc3d hne
    unfold load_markers
    rw [if_pos hc3d]
    unfold load_c3d
    rw [if_neg hne]
  · intro hc3d hcsv
    unfold load_markers
    rw [if_neg (by simp [hc3d]), if_neg (by simp [hcsv])]

/-- C10 (amended): with an empty attachment set, rms_distance is NaN
(np.mean of an empty list, propagated through np.sqrt), not zero, and the
IEEE comparison NaN < threshold is false for every threshold; the
as-written settle_to_markers, however, never performs such a comparison and
never returns settled body states in any state - every invocation, empty
attachment set or not, ends on its first iteration in the NameError of
source line 400, before any threshold test. -/
theorem c10_empty_rms_nan :
    (∀ anchors : AttachJoint → Vec3 × Vec3,
      rms_distance anchors [] = RmsVal.nan) ∧
    (∀ t : ℚ, rmsLt RmsVal.nan t = false) ∧
    (∀ (e : Engine) (f : Nat) (mx : ℚ) (states : Option FrameState)
      (w : CWorld) (s : FrameState),
      settle_to_markers e f mx states w ≠ Except.ok s) := by
  refine ⟨fun _ => rfl, fun _ => rfl, ?_⟩
  intro e f mx states w s h
  have h2 : Except.error PyErr.nameErrorMaxRmsd = Except.ok s := h
  cases h2

/-! Concrete instances used by the witnesses and counterexamples. -/

def stA : BodyState :=
  { position := (1, 2, 3), quaternion := (1, 0, 0, 0)
    linear_velocity := (0, 0, 0), angular_velocity := (0, 0, 0) }

def stB : BodyState :=
  { position := (4, 5, 6), quaternion := (0, 1, 0, 0)
    linear_velocity := (1, 0, 0), angular_velocity := (0, 0, 1) }

def physW : PhysWorld := { bodies := [("pelvis", stA), ("ankle", stB)] }

def mEmpty : Markers :=
  { channels := [], marker_bodies := [], attach_bodies := []
    attach_offsets := [], roots := [], cfm := DEFAULT_CFM, erp := DEFAULT_ERP
    root_attachment_factor := 1, joints := [], data := [], world_dt := 1 / 60 }

def wEmpty : CWorld :=
  { markers := mEmpty, skeleton := [("pelvis", stA)], motors_on := false
    motor_max_force := 0, target_angles := [], applied_torques := []
    feedback := [], contacts := 0, torque_log := [] }

def eTest : Engine :=
  { stepPose := fun _ _ => stB, stepTorques := fun _ => [7]
    contactsFn := fun _ => 1, anchors := fun _ _ => (vzero, vzero) }

def cpTest : FrameState := [("pelvis", stB)]

def sOK : MSample := { pos := vzero, res := 0, validity := 0 }

def sC2a : MSample := { pos := (0, 0, 0), res := 0, validity := -(1 / 2) }

def sC2b : MSample := { pos := (0, 0, 1), res := 0, validity := 0 }

def sC2c : MSample := { pos := (0, 0, 2), res := 0, validity := 0 }

def mC2 : Markers :=
  { mEmpty with
    channels := [("m0", 0)]
    marker_bodies := [("m0", defaultMB)]
    data := [[sC2a], [sC2b], [sC2c]] }

def mC3 : Markers :=
  { mEmpty with
    channels := [("mr", 0), ("mn", 1)]
    marker_bodies := [("mr", defaultMB), ("mn", defaultMB)]
    attach_bodies := [("mr", "pelvis"), ("mn", "shin")]
    attach_offsets := [("mr", vzero), ("mn", vzero)]
    roots := ["pelvis"]
    data := [[sOK, sOK]] }

def mC3b : Markers := { mC3 with root_attachment_factor := 10 }

def dummyJoint : AttachJoint :=
  { marker := "", target := "", anchor2Rel := vzero, cfmParam := 0
    erpParam := 0 }

/-- C1 witness: a concrete inverse-dynamics frame whose checkpoint differs
from the post-step body states, restored exactly. -/
theorem c1_inverse_dynamics_restores_checkpoint_witness :
    ((idFrame eTest 100 [1] cpTest wEmpty).1).skeleton = cpTest :=
  (c1_inverse_dynamics_restores_checkpoint eTest 100 [1] cpTest wEmpty
    (by decide) (by decide)).1

/-- C2 counterexample to the claim as stated: at interior frame 1 of mC2,
the previous frame's validity is -1/2, which is a dropout by the claimed
sentinel validity < 0, yet reposition computes the nonzero centered
finite-difference velocity (0, 0, 60) because the source tests
validity > -1. -/
theorem c2_reposition_dropout_counterexample :
    ((mC2.data.getD 0 []).getD 0 defaultSample).validity < 0 ∧
    velAfter mC2 1 "m0" = ((0 : ℚ), (0 : ℚ), (60 : ℚ)) ∧
    velAfter mC2 1 "m0" ≠ vzero := by with_unfolding_all decide

/-- C2 witness: the amended rule applied at boundary frame 0 of mC2. -/
theorem c2_reposition_velocity_rule_witness : velAfter mC2 0 "m0" = vzero :=
  (c2_reposition_velocity_rule mC2 0 "m0" 0 (by decide) (by decide)
    (by decide)).1 (Or.inl rfl)

/-- The two joints attach builds on mC3: the root-target joint and the
non-root joint, both with compliance cfm / 1 because the default
root_attachment_factor is 1. -/
def jC3r : AttachJoint :=
  { marker := "mr", target := "pelvis", anchor2Rel := vzero
    cfmParam := DEFAULT_CFM / 1, erpParam := DEFAULT_ERP }

def jC3n : AttachJoint :=
  { marker := "mn", target := "shin", anchor2Rel := vzero
    cfmParam := DEFAULT_CFM / 1, erpParam := DEFAULT_ERP }

/-- The two joints attach builds on mC3b, whose factor is 10. -/
def jC3br : AttachJoint :=
  { marker := "mr", target := "pelvis", anchor2Rel := vzero
    cfmParam := DEFAULT_CFM / 10, erpParam := DEFAULT_ERP }

def jC3bn : AttachJoint :=
  { marker := "mn", target := "shin", anchor2Rel := vzero
    cfmParam := DEFAULT_CFM / 1, erpParam := DEFAULT_ERP }

/-- C3 counterexample to the claim as stated: with the source's default
root_attachment_factor of 1, a root attachment and an otherwise-identical
non-root attachment receive equal compliance, so the root one is not
strictly smaller (stiffer). -/
theorem c3_root_stiffening_counterexample :
    jC3r ∈ mC3.attachJoints 0 ∧ jC3n ∈ mC3.attachJoints 0 ∧
    jC3r.target ∈ mC3.roots ∧ jC3n.target ∉ mC3.roots ∧
    jC3r.cfmParam = jC3n.cfmParam ∧
    ¬(jC3r.cfmParam < jC3n.cfmParam) := by
  have h : mC3.attachJoints 0 = [jC3r, jC3n] := rfl
  refine ⟨h ▸ List.mem_cons_self jC3r [jC3n],
         h ▸ List.mem_cons_of_mem jC3r (List.mem_cons_self jC3n []),
         by decide, by decide, rfl, lt_irrefl jC3r.cfmParam⟩

/-- C3 witness: with a factor of 10 the root joint's compliance is strictly
smaller than the non-root joint's. -/
theorem c3_attach_compliance_witness : jC3br.cfmParam < jC3bn.cfmParam :=
  (c3_attach_compliance mC3b 0 jC3br jC3bn
    ((rfl : mC3b.attachJoints 0 = [jC3br, jC3bn]) ▸
      List.mem_cons_self jC3br [jC3bn])
    ((rfl : mC3b.attachJoints 0 = [jC3br, jC3bn]) ▸
      List.mem_cons_of_mem jC3br (List.mem_cons_self jC3bn []))
    (by decide) (by decide)).2.2.2
    (by with_unfolding_all decide) (by with_unfolding_all decide)

/-- C6 witness: the capture-restore pair on a concrete two-body world. -/
theorem c6_body_states_roundtrip_witness :
    physW.set_body_states physW.get_body_states = physW :=
  (c6_body_states_roundtrip physW (by decide)).1

/-- C8 witness: the attach-detach algebra on the concrete state mC3, whose
attachment set is empty so detach is also a no-op on it. -/
theorem c8_attach_detach_algebra_witness :
    ((mC3.attach 0).detach).joints = [] ∧ mC3.detach = mC3 :=
  ⟨(c8_attach_detach_algebra mC3 0).1,
   (c8_attach_detach_algebra mC3 0).2.1 (by decide)⟩

/-- C9 counterexample to the claim as stated: load_markers on a filename
that is neither .c3d nor .csv does not abort; it returns normally with
load_attachments reached. -/
theorem c9_unknown_format_counterexample :
    load_markers "markers.txt" (1 / 60) 60 =
      Except.ok [LoadEv.fatalLogged, LoadEv.loadAttachments] := by
  with_unfolding_all rfl

/-- C9 witness: the amended behavior at two concrete loads: a .c3d file
with a mismatched frame rate aborts with the assertion error, and an
unrecognized extension continues into attachment loading. -/
theorem c9_load_markers_behavior_witness :
    load_markers "walk.c3d" 1 2 = Except.error PyErr.assertFrameRate ∧
    load_markers "points.txt" 1 2 =
      Except.ok [LoadEv.fatalLogged, LoadEv.loadAttachments] :=
  ⟨(c9_load_markers_behavior "walk.c3d" 1 2).1 (by with_unfolding_all decide)
     (by with_unfolding_all decide),
   (c9_load_markers_behavior "points.txt" 1 2).2
     (by with_unfolding_all decide) (by with_unfolding_all decide)⟩

/-- C10 counterexample to the claim as stated: a concrete world whose
attachment set is empty, where rms_distance is indeed NaN, yet
settle_to_markers does not loop forever on the failed NaN comparison - it
terminates at once, on its first iteration, raising the NameError of
source line 400 before any threshold comparison is reached. -/
theorem c10_empty_settle_counterexample :
    wEmpty.markers.joints = [] ∧
    rms_distance (eTest.anchors wEmpty) wEmpty.markers.joints = RmsVal.nan ∧
    settle_to_markers eTest 0 (1 / 10) none wEmpty =
      Except.error PyErr.nameErrorMaxRmsd :=
  ⟨rfl, rfl, rfl⟩

end PySim
